import Mathlib

/-!
Shallow embedding of the record-parsing core of `gsod.py`
(`StationLoader.get_field_names`, the per-row body of
`StationLoader.get_stations`, `StationLoader.postprocess`,
`WeatherLoader.parse_weather_record`, `str_to_datetime`,
`convert_location`).

Modelling conventions:
* Python values flowing through the parsers are modelled by `PyVal`
  (`None`, `str`, floats as exact rationals, `bool`, `datetime` as a
  year/month/day triple).  Python `float` arithmetic is modelled by exact
  rational arithmetic: the decimal tokens of the archive denote exact
  rationals and the only arithmetic performed is `(x - 32) * 5 / 9`.
* Python `dict` (insertion ordered, first-insertion position kept on
  update) is modelled by an association list `Dict` with `dictSet`
  updating the first occurrence in place or appending.
* Fallible code returns `Except PyErr _`; the Python exceptions that the
  parsing paths can raise (`KeyError`, `ValueError` from `float`/`strptime`,
  `TypeError`, `AttributeError`) are the constructors of `PyErr`.
-/

namespace Gsod

/-- A Python value as used by the gsod parsers. -/
inductive PyVal where
  | none : PyVal
  | str : String → PyVal
  | num : ℚ → PyVal
  | bool : Bool → PyVal
  | date : ℕ → ℕ → ℕ → PyVal
deriving DecidableEq, Repr

/-- The Python exceptions reachable from the parsing code. -/
inductive PyErr where
  | keyError : String → PyErr
  | valueError : String → PyErr
  | typeError : String → PyErr
  | attributeError : String → PyErr
deriving DecidableEq, Repr

/-- Python truthiness for the values that occur in the parsers. -/
def pyTruthy : PyVal → Bool
  | .none => false
  | .str s => s ≠ ""
  | .num q => q ≠ 0
  | .bool b => b
  | .date _ _ _ => true

/-- A Python dict with string keys, as an insertion-ordered association list. -/
abbrev Dict := List (String × PyVal)

/-- Lookup, `d[k]` as a total function (`none` when the key is absent). -/
def dictGet? : Dict → String → Option PyVal
  | [], _ => Option.none
  | (k', v) :: d, k => if k' = k then some v else dictGet? d k

/-- Assignment `d[k] = v`: update the first occurrence in place, else append
(Python dicts keep the original insertion position on update). -/
def dictSet : Dict → String → PyVal → Dict
  | [], k, v => [(k, v)]
  | (k', v') :: d, k, v => if k' = k then (k, v) :: d else (k', v') :: dictSet d k v

/-- Subscript access `d[k]`, raising `KeyError` when the key is absent. -/
def dictGetE (d : Dict) (k : String) : Except PyErr PyVal :=
  match dictGet? d k with
  | some v => .ok v
  | Option.none => .error (.keyError k)

/-- Statement `del d[k]`: removes the key, `KeyError` when absent. -/
def delKey (d : Dict) (k : String) : Except PyErr Dict :=
  match dictGet? d k with
  | some _ => .ok (d.filter (fun p => p.1 ≠ k))
  | Option.none => .error (.keyError k)

/-- The keys of a dict, in order. -/
def keysOf (d : Dict) : List String := d.map (·.1)

/-- Python `dict(zip(names, vals))`. -/
def dictOfZip (names : List String) (vals : List PyVal) : Dict :=
  (names.zip vals).foldl (fun d p => dictSet d p.1 p.2) []

/-- Characters treated as whitespace by Python `str.strip()` / `str.split()`. -/
def pyWhitespace (c : Char) : Bool :=
  c = ' ' ∨ c = '\t' ∨ c = '\n' ∨ c = '\r' ∨ c = '\x0b' ∨ c = '\x0c'

/-- Python `str.strip()` with no argument: trim leading and trailing whitespace. -/
def pyStrip (s : String) : String :=
  String.mk (((s.data.dropWhile pyWhitespace).reverse.dropWhile pyWhitespace).reverse)

/-- Python `str.split()` with no argument: split on whitespace runs,
discarding empty pieces. -/
def pySplit (s : String) : List String :=
  ((s.data.splitOnP pyWhitespace).map String.mk).filter (fun t => t ≠ "")

/-- Replace every (left-to-right, non-overlapping) occurrence of the non-empty
pattern `pat` by `repl`; `fuel` bounds the recursion (each step consumes at
least one source character, so `fuel = src.length` is always enough). -/
def replaceCore (pat repl : List Char) : ℕ → List Char → List Char
  | _, [] => []
  | 0, l => l
  | fuel + 1, c :: rest =>
    if pat.isPrefixOf (c :: rest) then
      repl ++ replaceCore pat repl fuel ((c :: rest).drop pat.length)
    else
      c :: replaceCore pat repl fuel rest

/-- Python `s.replace(pat, repl)` for the non-empty patterns used by
`get_field_names` (Python's behaviour on an empty pattern is never exercised). -/
def pyReplace (s pat repl : String) : String :=
  match pat.data with
  | [] => s
  | _ :: _ => String.mk (replaceCore pat.data repl.data s.data.length s.data)

/-- Python `str.lower()` on the ASCII header cells. -/
def pyLower (s : String) : String :=
  String.mk (s.data.map Char.toLower)

/-- Numeric value of a list of decimal digit characters (most significant first). -/
def digitsVal (l : List Char) : ℕ :=
  l.foldl (fun a c => a * 10 + (c.toNat - 48)) 0

/-- Model of CPython `float(token)` on the whitespace-free tokens of the
archive: optional sign, then `digits[.digits]`, `digits.`, or `.digits`, with
an optional exponent part.  The exact rational value
`± (int.frac) × 10^exp` is built with `mkRat` from an integer numerator and a
power-of-ten denominator.  (`inf`/`nan` spellings and underscore digit
grouping, which never occur in archive tokens, are not modelled.)  Returns
`Option.none` where `float` raises `ValueError`. -/
def pyFloat? (s : String) : Option ℚ :=
  let cs := s.data
  let signed : ℤ × List Char :=
    match cs with
    | '+' :: rest => (1, rest)
    | '-' :: rest => (-1, rest)
    | _ => (1, cs)
  let sign := signed.1
  let cs := signed.2
  let intPart := cs.takeWhile Char.isDigit
  let cs := cs.dropWhile Char.isDigit
  let fractioned : List Char × List Char :=
    match cs with
    | '.' :: rest => (rest.takeWhile Char.isDigit, rest.dropWhile Char.isDigit)
    | _ => ([], cs)
  let fracPart := fractioned.1
  let cs := fractioned.2
  if intPart.isEmpty ∧ fracPart.isEmpty then Option.none
  else
    let digits : ℕ := digitsVal intPart * 10 ^ fracPart.length + digitsVal fracPart
    match cs with
    | [] => some (mkRat (sign * digits) (10 ^ fracPart.length))
    | e :: rest =>
      if e = 'e' ∨ e = 'E' then
        let esigned : ℤ × List Char :=
          match rest with
          | '+' :: r => (1, r)
          | '-' :: r => (-1, r)
          | _ => (1, rest)
        let eds := esigned.2.takeWhile Char.isDigit
        let rest' := esigned.2.dropWhile Char.isDigit
        if eds.isEmpty ∨ ¬rest'.isEmpty then Option.none
        else
          let expVal : ℤ := esigned.1 * (digitsVal eds : ℤ)
          if 0 ≤ expVal then
            some (mkRat (sign * digits * 10 ^ expVal.toNat) (10 ^ fracPart.length))
          else
            some (mkRat (sign * digits) (10 ^ fracPart.length * 10 ^ (-expVal).toNat))
      else Option.none

/-- Gregorian leap-year test, as used by `datetime`. -/
def isLeapYear (y : ℕ) : Bool :=
  y % 4 = 0 ∧ (y % 100 ≠ 0 ∨ y % 400 = 0)

/-- Number of days in a month of the proleptic Gregorian calendar. -/
def daysInMonth (y m : ℕ) : ℕ :=
  if m = 2 then (if isLeapYear y then 29 else 28)
  else if m = 4 ∨ m = 6 ∨ m = 9 ∨ m = 11 then 30
  else 31

/-- Model of CPython `datetime.datetime.strptime(s, "%Y%m%d")` on the 8-digit
date tokens of the archive: exactly four year digits then two month and two
day digits, validated against the calendar (`datetime` bounds the year below
by 1).  Returns `Option.none` where `strptime` raises `ValueError`. -/
def strptimeYmd? (s : String) : Option (ℕ × ℕ × ℕ) :=
  let cs := s.data
  if cs.length = 8 ∧ cs.all Char.isDigit then
    let y := digitsVal (cs.take 4)
    let m := digitsVal ((cs.drop 4).take 2)
    let d := digitsVal ((cs.drop 4).drop 2)
    if 1 ≤ y ∧ 1 ≤ m ∧ m ≤ 12 ∧ 1 ≤ d ∧ d ≤ daysInMonth y m then some (y, m, d)
    else Option.none
  else Option.none

/-- Embedding of `str_to_datetime(val)`:
`return val and datetime.datetime.strptime(val, '%Y%m%d')` — a falsy value is
returned unchanged, a truthy string is parsed (raising `ValueError` when
malformed), a truthy non-string is a `TypeError` of `strptime`. -/
def str_to_datetime (val : PyVal) : Except PyErr PyVal :=
  if pyTruthy val then
    match val with
    | .str s =>
      match strptimeYmd? s with
      | some (y, m, d) => .ok (.date y m d)
      | Option.none => .error (.valueError s)
    | _ => .error (.typeError "strptime")
  else .ok val

/-- Python `val.lstrip('+')`: remove the maximal leading run of `'+'`. -/
def pyLstripPlus (s : String) : String :=
  String.mk (s.data.dropWhile (fun c => c = '+'))

/-- Embedding of `convert_location(val)`: a falsy value falls through the
`if val:` guard and the function implicitly returns `None`; a truthy string
starting with `'+'` is returned with `val.lstrip('+')` applied, any other
truthy string is returned unchanged (a truthy non-string would fail at
`val[0]`). -/
def convert_location (val : PyVal) : Except PyErr PyVal :=
  if pyTruthy val then
    match val with
    | .str s =>
      if s.data.head? = some '+' then .ok (.str (pyLstripPlus s))
      else .ok (.str s)
    | _ => .error (.typeError "subscript")
  else .ok .none

/-- The cell normalisation `field.strip() or None` applied to every raw cell
or token before it enters a record dict. -/
def normCell (f : String) : PyVal :=
  if pyStrip f = "" then .none else .str (pyStrip f)

/-- Embedding of `StationLoader.get_field_names(header)`: lower-case each
header cell, replace spaces by underscores, delete every `"(.1m)"`. -/
def get_field_names (header : List String) : List String :=
  header.map (fun name => pyReplace (pyReplace (pyLower name) " " "_") "(.1m)" "")

/-- Embedding of `StationLoader.postprocess(obj)`: convert `lat`, `lon`,
`elev(m)` through `convert_location` and `begin`, `end` through
`str_to_datetime`, each via a `obj[k]` read (possible `KeyError`) and a
`obj[k] = ...` write. -/
def postprocess (obj : Dict) : Except PyErr Dict := do
  let v ← dictGetE obj "lat"
  let v' ← convert_location v
  let obj := dictSet obj "lat" v'
  let v ← dictGetE obj "lon"
  let v' ← convert_location v
  let obj := dictSet obj "lon" v'
  let v ← dictGetE obj "elev(m)"
  let v' ← convert_location v
  let obj := dictSet obj "elev(m)" v'
  let v ← dictGetE obj "begin"
  let v' ← str_to_datetime v
  let obj := dictSet obj "begin" v'
  let v ← dictGetE obj "end"
  let v' ← str_to_datetime v
  pure (dictSet obj "end" v')

/-- Embedding of the per-row body of `StationLoader.get_stations`: normalise
each cell with `field.strip() or None`, zip with the header-derived field
names into a dict, and postprocess. -/
def parse_station_row (header : List String) (row : List String) : Except PyErr Dict :=
  postprocess (dictOfZip (get_field_names header) (row.map normCell))

/-- The fixed 20-name positional schema of `parse_weather_record`
(six `'_'` placeholder slots). -/
def field_names : List String :=
  ["date",
   "temp", "_",
   "dew_point", "_",
   "sea_level_pressure", "_",
   "station_pressure", "_",
   "visibility", "_",
   "wind_speed", "_",
   "max_wind_speed",
   "max_wind_gust",
   "max_temp",
   "min_temp",
   "precipitation",
   "snow_depth",
   "indicators"]

/-- The fields converted to floats by `parse_weather_record`. -/
def float_field_names : List String :=
  ["temp", "dew_point", "sea_level_pressure", "station_pressure",
   "visibility", "wind_speed", "max_wind_speed", "max_wind_gust",
   "max_temp", "min_temp", "precipitation", "snow_depth"]

/-- The fields given Celsius companions by `parse_weather_record`. -/
def temp_field_names : List String := ["temp", "max_temp", "min_temp"]

/-- The six indicator field names of `parse_weather_record`. -/
def indicator_names : List String :=
  ["fog", "rain", "snow", "hail", "thunder", "tornado"]

/-- Python `value.rstrip('*ABCDEFGHI')`: remove the maximal trailing run of
characters drawn from that set. -/
def rstripQuality (s : String) : String :=
  String.mk ((s.data.reverse.dropWhile
    (fun c => c ∈ ['*', 'A', 'B', 'C', 'D', 'E', 'F', 'G', 'H', 'I'])).reverse)

/-- The loop body of the float conversion in `parse_weather_record`:
`value = obj[f].rstrip('*ABCDEFGHI')`, then `None` if the stripped value is
one of `('9999.9', '99.99', '999.9')`, else `float(value)` (`ValueError`
when unparsable; a non-string field value would fail at `.rstrip`). -/
def floatConv (v : PyVal) : Except PyErr PyVal :=
  match v with
  | .str s =>
    let value := rstripQuality s
    if value = "9999.9" ∨ value = "99.99" ∨ value = "999.9" then .ok .none
    else
      match pyFloat? value with
      | some q => .ok (.num q)
      | Option.none => .error (.valueError value)
  | _ => .error (.attributeError "rstrip")

/-- One iteration of the float-conversion loop: read `obj[f]`, convert,
write back. -/
def floatStep (name : String) (d : Dict) : Except PyErr Dict := do
  let v ← dictGetE d name
  let w ← floatConv v
  pure (dictSet d name w)

/-- The float-conversion loop of `parse_weather_record` over
`float_field_names`. -/
def floatLoop (d : Dict) : Except PyErr Dict :=
  float_field_names.foldlM (fun acc n => floatStep n acc) d

/-- The loop body of the Celsius conversion: `None` propagates, a number `q`
becomes `(q - 32) * 5 / 9`, anything else would fail at `value - 32`. -/
def celsiusOf (v : PyVal) : Except PyErr PyVal :=
  match v with
  | .none => .ok .none
  | .num q => .ok (.num ((q - 32) * 5 / 9))
  | _ => .error (.typeError "unsupported operand")

/-- One iteration of the Celsius loop: read `obj[f]`, convert, store under
`f + "_c"`. -/
def celsiusStep (name : String) (d : Dict) : Except PyErr Dict := do
  let v ← dictGetE d name
  let c ← celsiusOf v
  pure (dictSet d (name ++ "_c") c)

/-- The Celsius derivation loop of `parse_weather_record` over
`temp_field_names`. -/
def celsiusLoop (d : Dict) : Except PyErr Dict :=
  temp_field_names.foldlM (fun acc n => celsiusStep n acc) d

/-- The indicator block of `parse_weather_record`:
`indicator_values = [flag == '1' for flag in obj['indicators']]` (iterating a
non-string raises `TypeError`), `obj['weather_ok'] = not any(indicator_values)`,
then `obj.update(dict(zip(indicator_names, indicator_values)))`. -/
def indicatorStep (obj : Dict) : Except PyErr Dict := do
  let v ← dictGetE obj "indicators"
  match v with
  | .str s =>
    let values := s.data.map (fun c => c == '1')
    let pairs := indicator_names.zip (values.map PyVal.bool)
    let obj := dictSet obj "weather_ok" (.bool (!values.any id))
    pure (pairs.foldl (fun d p => dictSet d p.1 p.2) obj)
  | _ => .error (.typeError "not iterable")

/-- Embedding of `WeatherLoader.parse_weather_record` after tokenisation:
normalise every token with `field.strip() or None`, zip with `field_names`,
convert the date, run the float loop, the Celsius loop, the indicator block,
and finally `del obj['_']`. -/
def parse_tokens (rawFields : List String) : Except PyErr Dict := do
  let fields := rawFields.map normCell
  let obj := dictOfZip field_names fields
  let d ← dictGetE obj "date"
  let d' ← str_to_datetime d
  let obj := dictSet obj "date" d'
  let obj ← floatLoop obj
  let obj ← celsiusLoop obj
  let obj ← indicatorStep obj
  delKey obj "_"

/-- Embedding of `WeatherLoader.parse_weather_record(line)`:
`fields = line.strip().split()[2:]`, then `parse_tokens`. -/
def parse_weather_record (line : String) : Except PyErr Dict :=
  parse_tokens ((pySplit (pyStrip line)).drop 2)

deriving instance DecidableEq for Except

/-- Convenience lookup: the value of one field of a parsed weather line
(`Option.none` when parsing failed or the key is absent). -/
def weatherField (line key : String) : Option PyVal :=
  (parse_weather_record line).toOption.bind (fun r => dictGet? r key)

/-- A well-formed weather line (all 22 columns); its precipitation token is
`"0.00G"` and its indicator token is `"000000"`. -/
def lineB : String :=
  "111111 22222  20100101  26.4 24  20.1 24  1010.2 24  1008.1 24  10.0 24  5.0 24  8.9  12.0  30.2* 20.1* 0.00G  2.0  000000"

/-- Same line shape with indicator token `"100000"` (fog only). -/
def lineB2 : String :=
  "111111 22222  20100101  26.4 24  20.1 24  1010.2 24  1008.1 24  10.0 24  5.0 24  8.9  12.0  30.2* 20.1* 0.00G  2.0  100000"

/-- Same line shape with a 7-character indicator token `"0000001"`. -/
def lineB7 : String :=
  "111111 22222  20100101  26.4 24  20.1 24  1010.2 24  1008.1 24  10.0 24  5.0 24  8.9  12.0  30.2* 20.1* 0.00G  2.0  0000001"

/-- Same line shape with max_temp token `"999.9*"` (flagged sentinel). -/
def lineC : String :=
  "111111 22222  20100101  26.4 24  20.1 24  1010.2 24  1008.1 24  10.0 24  5.0 24  8.9  12.0  999.9* 20.1* 0.04  2.0  000000"

/-- A weather line whose numeric tokens are all sentinels and whose
indicator token is the 6-character `"010000"`. -/
def lineS6 : String :=
  "999999 99999  20200229  9999.9 24  9999.9 24  9999.9 24  9999.9 24  999.9 24  999.9 24  999.9  999.9  9999.9*  9999.9*  99.99I  999.9  010000"

/-- The record `parse_weather_record` produces for `lineS6`. -/
def recS6 : Dict :=
  [("date", .date 2020 2 29),
   ("temp", .none), ("dew_point", .none), ("sea_level_pressure", .none),
   ("station_pressure", .none), ("visibility", .none), ("wind_speed", .none),
   ("max_wind_speed", .none), ("max_wind_gust", .none), ("max_temp", .none),
   ("min_temp", .none), ("precipitation", .none), ("snow_depth", .none),
   ("indicators", .str "010000"),
   ("temp_c", .none), ("max_temp_c", .none), ("min_temp_c", .none),
   ("weather_ok", .bool false),
   ("fog", .bool false), ("rain", .bool true), ("snow", .bool false),
   ("hail", .bool false), ("thunder", .bool false), ("tornado", .bool false)]

/-- A weather line whose numeric tokens are all sentinels and whose
indicator token is the 5-character `"10000"`. -/
def lineS5 : String :=
  "999999 99999  20200229  9999.9 24  9999.9 24  9999.9 24  9999.9 24  999.9 24  999.9 24  999.9  999.9  9999.9*  9999.9*  99.99I  999.9  10000"

/-- The record `parse_weather_record` produces for `lineS5`: the `tornado`
field is silently absent. -/
def recS5 : Dict :=
  [("date", .date 2020 2 29),
   ("temp", .none), ("dew_point", .none), ("sea_level_pressure", .none),
   ("station_pressure", .none), ("visibility", .none), ("wind_speed", .none),
   ("max_wind_speed", .none), ("max_wind_gust", .none), ("max_temp", .none),
   ("min_temp", .none), ("precipitation", .none), ("snow_depth", .none),
   ("indicators", .str "10000"),
   ("temp_c", .none), ("max_temp_c", .none), ("min_temp_c", .none),
   ("weather_ok", .bool false),
   ("fog", .bool true), ("rain", .bool false), ("snow", .bool false),
   ("hail", .bool false), ("thunder", .bool false)]

/-- The keys a successful parse settles before the six indicator booleans
are appended (in insertion order, after `del obj['_']`). -/
def weatherBaseKeys : List String :=
  ["date", "temp", "dew_point", "sea_level_pressure", "station_pressure",
   "visibility", "wind_speed", "max_wind_speed", "max_wind_gust", "max_temp",
   "min_temp", "precipitation", "snow_depth", "indicators",
   "temp_c", "max_temp_c", "min_temp_c", "weather_ok"]

/-- The full key list of a parsed weather record whose indicator token has at
least six characters. -/
def weatherRecordKeys : List String := weatherBaseKeys ++ indicator_names

/-- The 23 field names the specification claims form the whole record: the
date, the 12 numeric fields, the 3 Celsius companions, the 6 indicators and
`weather_ok` (written here following the spec's words, for comparison with
the record the code actually builds). -/
def claimedWeatherFields : List String :=
  ["date", "temp", "dew_point", "sea_level_pressure", "station_pressure",
   "visibility", "wind_speed", "max_wind_speed", "max_wind_gust", "max_temp",
   "min_temp", "precipitation", "snow_depth",
   "temp_c", "max_temp_c", "min_temp_c",
   "fog", "rain", "snow", "hail", "thunder", "tornado", "weather_ok"]

/-- The header row of the station-directory CSV (`isd-history.csv`) that
`get_stations` fetches. -/
def stdStationHeader : List String :=
  ["USAF", "WBAN", "STATION NAME", "CTRY", "STATE", "ICAO", "LAT", "LON",
   "ELEV(M)", "BEGIN", "END"]

/-- The station header extended by one trailing column. -/
def extraStationHeader : List String := stdStationHeader ++ ["EXTRA"]

/-- A row with 11 cells: one fewer than `extraStationHeader` has columns. -/
def shortStationRow : List String :=
  ["724940", "23234", "SAN FRANCISCO INTL", "US", "CA", "KSFO",
   "+37.620", "-122.365", "+0002.4", "19730101", "20250101"]

/-- The record `parse_station_row extraStationHeader shortStationRow`
produces: the `extra` field is silently absent and no error is raised. -/
def stationRecShort : Dict :=
  [("usaf", .str "724940"), ("wban", .str "23234"),
   ("station_name", .str "SAN FRANCISCO INTL"), ("ctry", .str "US"),
   ("state", .str "CA"), ("icao", .str "KSFO"), ("lat", .str "37.620"),
   ("lon", .str "-122.365"), ("elev(m)", .str "0002.4"),
   ("begin", .date 1973 1 1), ("end", .date 2025 1 1)]

/-- A header whose cells normalise to a duplicated key (`lat` twice). -/
def dupStationHeader : List String :=
  ["LAT", "LON", "ELEV(M)", "BEGIN", "END", "Lat"]

/-- A full row for `dupStationHeader`; the first and last cells both map to
the key `lat`. -/
def dupStationRow : List String :=
  ["+10.0", "20.0", "30.0", "19800101", "19900101", "+99.9"]

/-- The record produced for the duplicated header: a single `lat` key, in the
first column's position, holding the last column's (sign-stripped) cell. -/
def dupStationRec : Dict :=
  [("lat", .str "99.9"), ("lon", .str "20.0"), ("elev(m)", .str "30.0"),
   ("begin", .date 1980 1 1), ("end", .date 1990 1 1)]

end Gsod

namespace Gsod

/-! ### Generic inversion and dictionary lemmas -/

theorem ok_bind {α β : Type} (a : α) (f : α → Except PyErr β) :
    ((Except.ok a : Except PyErr α) >>= f) = f a := rfl

theorem error_bind {α β : Type} (e : PyErr) (f : α → Except PyErr β) :
    ((Except.error e : Except PyErr α) >>= f) = .error e := rfl

theorem pure_eq_ok {α : Type} (a : α) : (pure a : Except PyErr α) = .ok a := rfl

theorem except_bind_ok {α β : Type} {x : Except PyErr α} {f : α → Except PyErr β} {b : β}
    (h : (x >>= f) = .ok b) : ∃ a, x = .ok a ∧ f a = .ok b := by
  cases x with
  | error e => rw [error_bind] at h; exact absurd h (by simp)
  | ok a => exact ⟨a, rfl, by rwa [ok_bind] at h⟩

theorem pure_ok {α : Type} {a b : α} (h : (pure a : Except PyErr α) = .ok b) : a = b := by
  rw [pure_eq_ok] at h
  exact Except.ok.inj h

theorem keysOf_append (d e : Dict) : keysOf (d ++ e) = keysOf d ++ keysOf e := by
  simp [keysOf]

theorem dictGet?_set_self (d : Dict) (k : String) (v : PyVal) :
    dictGet? (dictSet d k v) k = some v := by
  induction d with
  | nil => simp [dictSet, dictGet?]
  | cons p d ih =>
    obtain ⟨a, b⟩ := p
    by_cases h : a = k
    · simp [dictSet, h, dictGet?]
    · simp [dictSet, h, dictGet?, ih]

theorem dictGet?_set_ne (d : Dict) {k' k : String} (h : k' ≠ k) (v : PyVal) :
    dictGet? (dictSet d k' v) k = dictGet? d k := by
  induction d with
  | nil => simp [dictSet, dictGet?, h]
  | cons p d ih =>
    obtain ⟨a, b⟩ := p
    by_cases ha : a = k'
    · subst ha
      simp [dictSet, dictGet?, h]
    · simp [dictSet, ha, dictGet?, ih]

theorem keysOf_cons (a : String) (b : PyVal) (d : Dict) :
    keysOf ((a, b) :: d) = a :: keysOf d := rfl

theorem keysOf_eq_map_fst (d : Dict) : keysOf d = d.map Prod.fst := rfl

theorem mem_keysOf_iff {d : Dict} {k : String} :
    k ∈ keysOf d ↔ (dictGet? d k).isSome := by
  induction d with
  | nil => simp [keysOf, dictGet?]
  | cons p d ih =>
    obtain ⟨a, b⟩ := p
    rw [keysOf_cons]
    by_cases h : a = k
    · subst h
      simp [dictGet?]
    · have hne : k ≠ a := fun he => h he.symm
      simp [dictGet?, h, hne, ih]

theorem keysOf_set_of_isSome {d : Dict} {k : String} (h : (dictGet? d k).isSome) (v : PyVal) :
    keysOf (dictSet d k v) = keysOf d := by
  induction d with
  | nil => simp [dictGet?] at h
  | cons p d ih =>
    obtain ⟨a, b⟩ := p
    by_cases ha : a = k
    · subst ha
      rw [show dictSet ((a, b) :: d) a v = (a, v) :: d from by simp [dictSet]]
      rw [keysOf_cons, keysOf_cons]
    · rw [show dictSet ((a, b) :: d) k v = (a, b) :: dictSet d k v from by simp [dictSet, ha]]
      rw [keysOf_cons, keysOf_cons]
      have h' : (dictGet? d k).isSome := by simpa [dictGet?, ha] using h
      rw [ih h']

theorem dictSet_of_none {d : Dict} {k : String} (h : dictGet? d k = Option.none) (v : PyVal) :
    dictSet d k v = d ++ [(k, v)] := by
  induction d with
  | nil => simp [dictSet]
  | cons p d ih =>
    obtain ⟨a, b⟩ := p
    by_cases ha : a = k
    · simp [dictGet?, ha] at h
    · simp only [dictGet?, ha, if_false] at h
      simp [dictSet, ha, ih h]

theorem dictGet?_append (d e : Dict) (k : String) :
    dictGet? (d ++ e) k =
      match dictGet? d k with
      | some v => some v
      | Option.none => dictGet? e k := by
  induction d with
  | nil => simp [dictGet?]
  | cons p d ih =>
    obtain ⟨a, b⟩ := p
    by_cases ha : a = k <;> simp [dictGet?, ha, ih]

theorem mem_keysOf_set {d : Dict} (a : String) (v : PyVal) (k : String) :
    k ∈ keysOf (dictSet d a v) ↔ k = a ∨ k ∈ keysOf d := by
  induction d with
  | nil =>
    rw [show dictSet [] a v = [(a, v)] from rfl, keysOf_cons]
    simp [keysOf]
  | cons p d ih =>
    obtain ⟨x, y⟩ := p
    by_cases hx : x = a
    · subst hx
      rw [show dictSet ((x, y) :: d) x v = (x, v) :: d from by simp [dictSet]]
      rw [keysOf_cons, keysOf_cons]
      simp only [List.mem_cons]
      tauto
    · rw [show dictSet ((x, y) :: d) a v = (x, y) :: dictSet d a v from by simp [dictSet, hx]]
      rw [keysOf_cons, keysOf_cons]
      simp only [List.mem_cons, ih]
      tauto

theorem mem_keysOf_foldl_set (ps : List (String × PyVal)) :
    ∀ (d : Dict) (k : String),
      k ∈ keysOf (ps.foldl (fun acc p => dictSet acc p.1 p.2) d) ↔
        k ∈ keysOf d ∨ k ∈ ps.map Prod.fst := by
  induction ps with
  | nil => intro d k; simp
  | cons p ps ih =>
    intro d k
    rw [List.foldl_cons, ih, mem_keysOf_set]
    simp only [List.map_cons, List.mem_cons]
    tauto

theorem foldl_set_eq_append (ps : List (String × PyVal)) :
    ∀ d : Dict, (∀ p ∈ ps, dictGet? d p.1 = Option.none) →
      (ps.map Prod.fst).Nodup →
      ps.foldl (fun acc p => dictSet acc p.1 p.2) d = d ++ ps := by
  induction ps with
  | nil => intro d _ _; simp
  | cons p ps ih =>
    intro d hfresh hnd
    have hp1 : dictGet? d p.1 = Option.none := hfresh p (List.mem_cons_self p ps)
    rw [List.foldl_cons, dictSet_of_none hp1 p.2, ih]
    · simp
    · intro q hq
      have hq1 : dictGet? d q.1 = Option.none := hfresh q (List.mem_cons_of_mem _ hq)
      have hne : p.1 ≠ q.1 := by
        intro he
        have : p.1 ∈ ps.map Prod.fst := he ▸ List.mem_map_of_mem Prod.fst hq
        exact (List.nodup_cons.mp hnd).1 this
      rw [dictGet?_append, hq1]
      simp [dictGet?, hne]
    · exact (List.nodup_cons.mp hnd).2

theorem map_fst_zip_eq_take {α β : Type} :
    ∀ (l1 : List α) (l2 : List β), (l1.zip l2).map Prod.fst = l1.take l2.length := by
  intro l1
  induction l1 with
  | nil => intro l2; simp
  | cons a l ih =>
    intro l2
    cases l2 with
    | nil => simp
    | cons b l2 => simp [ih]

theorem mem_take_of_le {α : Type} {a : α} {l : List α} {m n : ℕ} (hmn : m ≤ n)
    (h : a ∈ l.take m) : a ∈ l.take n := by
  have he : l.take m = (l.take n).take m := by
    rw [List.take_take, min_eq_left hmn]
  rw [he] at h
  exact List.take_subset _ _ h

/-! ### Inversion lemmas for the individual parsing steps -/

theorem floatStep_ok {n : String} {d d' : Dict} (h : floatStep n d = .ok d') :
    ∃ v w, dictGet? d n = some v ∧ floatConv v = .ok w ∧ d' = dictSet d n w := by
  unfold floatStep at h
  cases hg : dictGet? d n with
  | none =>
    simp only [dictGetE, hg, error_bind] at h
    exact absurd h (by simp)
  | some v =>
    simp only [dictGetE, hg, ok_bind] at h
    obtain ⟨w, hw, hp⟩ := except_bind_ok h
    exact ⟨v, w, rfl, hw, (pure_ok hp).symm⟩

theorem celsiusStep_ok {n : String} {d d' : Dict} (h : celsiusStep n d = .ok d') :
    ∃ v c, dictGet? d n = some v ∧ celsiusOf v = .ok c ∧ d' = dictSet d (n ++ "_c") c := by
  unfold celsiusStep at h
  cases hg : dictGet? d n with
  | none =>
    simp only [dictGetE, hg, error_bind] at h
    exact absurd h (by simp)
  | some v =>
    simp only [dictGetE, hg, ok_bind] at h
    obtain ⟨c, hc, hp⟩ := except_bind_ok h
    exact ⟨v, c, rfl, hc, (pure_ok hp).symm⟩

theorem indicatorStep_ok {d d' : Dict} (h : indicatorStep d = .ok d') :
    ∃ s, dictGet? d "indicators" = some (.str s) ∧
      d' = (indicator_names.zip ((s.data.map (fun c => c == '1')).map PyVal.bool)).foldl
             (fun acc p => dictSet acc p.1 p.2)
             (dictSet d "weather_ok" (.bool (!(s.data.map (fun c => c == '1')).any id))) := by
  unfold indicatorStep at h
  cases hg : dictGet? d "indicators" with
  | none =>
    simp only [dictGetE, hg, error_bind] at h
    exact absurd h (by simp)
  | some v =>
    simp only [dictGetE, hg, ok_bind] at h
    cases v with
    | str s =>
      refine ⟨s, rfl, ?_⟩
      exact (pure_ok h).symm
    | none => exact absurd h (by simp)
    | num q => exact absurd h (by simp)
    | bool b => exact absurd h (by simp)
    | date y m dd => exact absurd h (by simp)

theorem floatFold_keys :
    ∀ (names : List String) (d d' : Dict),
      names.foldlM (fun acc n => floatStep n acc) d = .ok d' → keysOf d' = keysOf d := by
  intro names
  induction names with
  | nil =>
    intro d d' h
    simp only [List.foldlM_nil] at h
    rw [(pure_ok h)]
  | cons n ns ih =>
    intro d d' h
    rw [List.foldlM_cons] at h
    obtain ⟨d1, h1, h2⟩ := except_bind_ok h
    obtain ⟨v, w, hv, hw, rfl⟩ := floatStep_ok h1
    rw [ih _ _ h2, keysOf_set_of_isSome (by simp [hv]) w]

theorem floatFold_get_ne :
    ∀ (names : List String) (d d' : Dict),
      names.foldlM (fun acc n => floatStep n acc) d = .ok d' →
      ∀ k, k ∉ names → dictGet? d' k = dictGet? d k := by
  intro names
  induction names with
  | nil =>
    intro d d' h k _
    simp only [List.foldlM_nil] at h
    rw [(pure_ok h)]
  | cons n ns ih =>
    intro d d' h k hk
    rw [List.foldlM_cons] at h
    obtain ⟨d1, h1, h2⟩ := except_bind_ok h
    obtain ⟨v, w, hv, hw, rfl⟩ := floatStep_ok h1
    rw [ih _ _ h2 k (fun hm => hk (List.mem_cons_of_mem _ hm)),
        dictGet?_set_ne _ (fun he => hk (by rw [← he]; exact List.mem_cons_self n ns)) w]

theorem celsiusFold_get_ne :
    ∀ (names : List String) (d d' : Dict),
      names.foldlM (fun acc n => celsiusStep n acc) d = .ok d' →
      ∀ k, k ∉ names.map (fun n => n ++ "_c") → dictGet? d' k = dictGet? d k := by
  intro names
  induction names with
  | nil =>
    intro d d' h k _
    simp only [List.foldlM_nil] at h
    rw [(pure_ok h)]
  | cons n ns ih =>
    intro d d' h k hk
    rw [List.foldlM_cons] at h
    obtain ⟨d1, h1, h2⟩ := except_bind_ok h
    obtain ⟨v, c, hv, hc, rfl⟩ := celsiusStep_ok h1
    have hk1 : k ∉ ns.map (fun n => n ++ "_c") := by
      intro hm
      exact hk (by simp only [List.map_cons, List.mem_cons]; exact Or.inr hm)
    have hk2 : n ++ "_c" ≠ k := by
      intro he
      exact hk (by simp only [List.map_cons, List.mem_cons]; exact Or.inl he.symm)
    rw [ih _ _ h2 k hk1, dictGet?_set_ne _ hk2 c]

end Gsod

namespace Gsod

theorem exists_cons20 {α : Type} {l : List α} (h : 20 ≤ l.length) :
    ∃ a1 a2 a3 a4 a5 a6 a7 a8 a9 a10 a11 a12 a13 a14 a15 a16 a17 a18 a19 a20 rest,
      l = a1 :: a2 :: a3 :: a4 :: a5 :: a6 :: a7 :: a8 :: a9 :: a10 :: a11 :: a12 ::
          a13 :: a14 :: a15 :: a16 :: a17 :: a18 :: a19 :: a20 :: rest := by
  rcases l with _ | ⟨a1, l⟩
  · simp at h
  rcases l with _ | ⟨a2, l⟩
  · simp at h
  rcases l with _ | ⟨a3, l⟩
  · simp at h
  rcases l with _ | ⟨a4, l⟩
  · simp at h
  rcases l with _ | ⟨a5, l⟩
  · simp at h
  rcases l with _ | ⟨a6, l⟩
  · simp at h
  rcases l with _ | ⟨a7, l⟩
  · simp at h
  rcases l with _ | ⟨a8, l⟩
  · simp at h
  rcases l with _ | ⟨a9, l⟩
  · simp at h
  rcases l with _ | ⟨a10, l⟩
  · simp at h
  rcases l with _ | ⟨a11, l⟩
  · simp at h
  rcases l with _ | ⟨a12, l⟩
  · simp at h
  rcases l with _ | ⟨a13, l⟩
  · simp at h
  rcases l with _ | ⟨a14, l⟩
  · simp at h
  rcases l with _ | ⟨a15, l⟩
  · simp at h
  rcases l with _ | ⟨a16, l⟩
  · simp at h
  rcases l with _ | ⟨a17, l⟩
  · simp at h
  rcases l with _ | ⟨a18, l⟩
  · simp at h
  rcases l with _ | ⟨a19, l⟩
  · simp at h
  rcases l with _ | ⟨a20, l⟩
  · simp at h
  exact ⟨a1, a2, a3, a4, a5, a6, a7, a8, a9, a10, a11, a12, a13, a14, a15, a16, a17, a18,
    a19, a20, l, rfl⟩

set_option maxHeartbeats 1000000 in
theorem parse_tokens_ok_master {raw : List String} {r : Dict}
    (h : parse_tokens raw = .ok r) :
    ∃ t1 t2 t3 t4 t5 t6 t7 t8 t9 t10 t11 t12 t13 t14 t15 t16 t17 t18 t19 t20 rest
      vdate w1 w2 w3 w4 w5 w6 w7 w8 w9 w10 w11 w12 c1 c2 c3 s,
      raw = t1 :: t2 :: t3 :: t4 :: t5 :: t6 :: t7 :: t8 :: t9 :: t10 :: t11 :: t12 ::
            t13 :: t14 :: t15 :: t16 :: t17 :: t18 :: t19 :: t20 :: rest ∧
      str_to_datetime (normCell t1) = .ok vdate ∧
      floatConv (normCell t2) = .ok w1 ∧
      floatConv (normCell t4) = .ok w2 ∧
      floatConv (normCell t6) = .ok w3 ∧
      floatConv (normCell t8) = .ok w4 ∧
      floatConv (normCell t10) = .ok w5 ∧
      floatConv (normCell t12) = .ok w6 ∧
      floatConv (normCell t14) = .ok w7 ∧
      floatConv (normCell t15) = .ok w8 ∧
      floatConv (normCell t16) = .ok w9 ∧
      floatConv (normCell t17) = .ok w10 ∧
      floatConv (normCell t18) = .ok w11 ∧
      floatConv (normCell t19) = .ok w12 ∧
      celsiusOf w1 = .ok c1 ∧
      celsiusOf w9 = .ok c2 ∧
      celsiusOf w10 = .ok c3 ∧
      normCell t20 = PyVal.str s ∧
      r = [("date", vdate), ("temp", w1), ("dew_point", w2), ("sea_level_pressure", w3),
           ("station_pressure", w4), ("visibility", w5), ("wind_speed", w6),
           ("max_wind_speed", w7), ("max_wind_gust", w8), ("max_temp", w9),
           ("min_temp", w10), ("precipitation", w11), ("snow_depth", w12),
           ("indicators", PyVal.str s), ("temp_c", c1), ("max_temp_c", c2), ("min_temp_c", c3),
           ("weather_ok", PyVal.bool (!(s.data.map (fun c => c == '1')).any id))]
          ++ indicator_names.zip ((s.data.map (fun c => c == '1')).map PyVal.bool) := by
  have h' : (dictGetE (dictOfZip field_names (raw.map normCell)) "date" >>= fun d0 =>
      str_to_datetime d0 >>= fun d1 =>
      floatLoop (dictSet (dictOfZip field_names (raw.map normCell)) "date" d1) >>= fun o2 =>
      celsiusLoop o2 >>= fun o3 =>
      indicatorStep o3 >>= fun o4 =>
      delKey o4 "_") = .ok r := h
  clear h
  obtain ⟨v0, hv0, h'⟩ := except_bind_ok h'
  obtain ⟨vdate, hdate, h'⟩ := except_bind_ok h'
  obtain ⟨o2, hfl, h'⟩ := except_bind_ok h'
  obtain ⟨o3, hcl, h'⟩ := except_bind_ok h'
  obtain ⟨o4, his, hdel⟩ := except_bind_ok h'
  obtain ⟨s, hind4, ho4⟩ := indicatorStep_ok his
  have hind2 : dictGet? o2 "indicators" = some (.str s) := by
    rw [← celsiusFold_get_ne temp_field_names o2 o3 hcl "indicators" (by decide)]
    exact hind4
  have hind1 : dictGet? (dictOfZip field_names (raw.map normCell)) "indicators" =
      some (.str s) := by
    rw [floatFold_get_ne float_field_names _ o2 hfl "indicators" (by decide)] at hind2
    rwa [dictGet?_set_ne _ (by decide) vdate] at hind2
  have hmem : "indicators" ∈ field_names.take (raw.map normCell).length := by
    have h1 : "indicators" ∈ keysOf (dictOfZip field_names (raw.map normCell)) :=
      mem_keysOf_iff.mpr (by rw [hind1]; rfl)
    unfold dictOfZip at h1
    rw [mem_keysOf_foldl_set] at h1
    rcases h1 with h1 | h1
    · simp [keysOf] at h1
    · rwa [map_fst_zip_eq_take] at h1
  have hlen : 20 ≤ raw.length := by
    by_contra hcon
    push_neg at hcon
    have hle : (raw.map normCell).length ≤ 19 := by
      rw [List.length_map]; omega
    have h19 : "indicators" ∈ field_names.take 19 := mem_take_of_le hle hmem
    revert h19
    decide
  clear hmem hind1 hind2
  obtain ⟨t1, t2, t3, t4, t5, t6, t7, t8, t9, t10, t11, t12, t13, t14, t15, t16, t17, t18,
    t19, t20, rest, rfl⟩ := exists_cons20 hlen
  have hbase : dictOfZip field_names ((t1 :: t2 :: t3 :: t4 :: t5 :: t6 :: t7 :: t8 :: t9 ::
      t10 :: t11 :: t12 :: t13 :: t14 :: t15 :: t16 :: t17 :: t18 :: t19 :: t20 ::
      rest).map normCell) =
      [("date", normCell t1), ("temp", normCell t2), ("_", normCell t13),
       ("dew_point", normCell t4), ("sea_level_pressure", normCell t6),
       ("station_pressure", normCell t8), ("visibility", normCell t10),
       ("wind_speed", normCell t12), ("max_wind_speed", normCell t14),
       ("max_wind_gust", normCell t15), ("max_temp", normCell t16),
       ("min_temp", normCell t17), ("precipitation", normCell t18),
       ("snow_depth", normCell t19), ("indicators", normCell t20)] := by
    simp [dictOfZip, field_names, dictSet]
  rw [hbase] at hv0 hfl
  simp [dictGetE, dictGet?] at hv0
  subst hv0
  simp only [floatLoop, float_field_names, List.foldlM_cons, List.foldlM_nil] at hfl
  obtain ⟨e1, hs1, hfl⟩ := except_bind_ok hfl
  obtain ⟨x1, w1, hx1, hw1, he1⟩ := floatStep_ok hs1
  subst he1
  simp [dictSet, dictGet?] at hx1
  subst hx1
  obtain ⟨e2, hs2, hfl⟩ := except_bind_ok hfl
  obtain ⟨x2, w2, hx2, hw2, he2⟩ := floatStep_ok hs2
  subst he2
  simp [dictSet, dictGet?] at hx2
  subst hx2
  obtain ⟨e3, hs3, hfl⟩ := except_bind_ok hfl
  obtain ⟨x3, w3, hx3, hw3, he3⟩ := floatStep_ok hs3
  subst he3
  simp [dictSet, dictGet?] at hx3
  subst hx3
  obtain ⟨e4, hs4, hfl⟩ := except_bind_ok hfl
  obtain ⟨x4, w4, hx4, hw4, he4⟩ := floatStep_ok hs4
  subst he4
  simp [dictSet, dictGet?] at hx4
  subst hx4
  obtain ⟨e5, hs5, hfl⟩ := except_bind_ok hfl
  obtain ⟨x5, w5, hx5, hw5, he5⟩ := floatStep_ok hs5
  subst he5
  simp [dictSet, dictGet?] at hx5
  subst hx5
  obtain ⟨e6, hs6, hfl⟩ := except_bind_ok hfl
  obtain ⟨x6, w6, hx6, hw6, he6⟩ := floatStep_ok hs6
  subst he6
  simp [dictSet, dictGet?] at hx6
  subst hx6
  obtain ⟨e7, hs7, hfl⟩ := except_bind_ok hfl
  obtain ⟨x7, w7, hx7, hw7, he7⟩ := floatStep_ok hs7
  subst he7
  simp [dictSet, dictGet?] at hx7
  subst hx7
  obtain ⟨e8, hs8, hfl⟩ := except_bind_ok hfl
  obtain ⟨x8, w8, hx8, hw8, he8⟩ := floatStep_ok hs8
  subst he8
  simp [dictSet, dictGet?] at hx8
  subst hx8
  obtain ⟨e9, hs9, hfl⟩ := except_bind_ok hfl
  obtain ⟨x9, w9, hx9, hw9, he9⟩ := floatStep_ok hs9
  subst he9
  simp [dictSet, dictGet?] at hx9
  subst hx9
  obtain ⟨e10, hs10, hfl⟩ := except_bind_ok hfl
  obtain ⟨x10, w10, hx10, hw10, he10⟩ := floatStep_ok hs10
  subst he10
  simp [dictSet, dictGet?] at hx10
  subst hx10
  obtain ⟨e11, hs11, hfl⟩ := except_bind_ok hfl
  obtain ⟨x11, w11, hx11, hw11, he11⟩ := floatStep_ok hs11
  subst he11
  simp [dictSet, dictGet?] at hx11
  subst hx11
  obtain ⟨e12, hs12, hfl⟩ := except_bind_ok hfl
  obtain ⟨x12, w12, hx12, hw12, he12⟩ := floatStep_ok hs12
  subst he12
  simp [dictSet, dictGet?] at hx12
  subst hx12
  have ho2 := pure_ok hfl
  have ho2f : o2 =
      [("date", vdate), ("temp", w1), ("_", normCell t13), ("dew_point", w2),
       ("sea_level_pressure", w3), ("station_pressure", w4), ("visibility", w5),
       ("wind_speed", w6), ("max_wind_speed", w7), ("max_wind_gust", w8),
       ("max_temp", w9), ("min_temp", w10), ("precipitation", w11),
       ("snow_depth", w12), ("indicators", normCell t20)] := by
    rw [← ho2]
    simp [dictSet]
  rw [ho2f] at hcl
  simp only [celsiusLoop, temp_field_names, List.foldlM_cons, List.foldlM_nil] at hcl
  obtain ⟨f1, hq1, hcl⟩ := except_bind_ok hcl
  obtain ⟨y1, c1, hy1, hc1, hf1⟩ := celsiusStep_ok hq1
  subst hf1
  simp [dictGet?] at hy1
  subst hy1
  obtain ⟨f2, hq2, hcl⟩ := except_bind_ok hcl
  obtain ⟨y2, c2, hy2, hc2, hf2⟩ := celsiusStep_ok hq2
  subst hf2
  simp [dictSet, dictGet?] at hy2
  subst hy2
  obtain ⟨f3, hq3, hcl⟩ := except_bind_ok hcl
  obtain ⟨y3, c3, hy3, hc3, hf3⟩ := celsiusStep_ok hq3
  subst hf3
  simp [dictSet, dictGet?] at hy3
  subst hy3
  have ho3 := pure_ok hcl
  have ho3f : o3 =
      [("date", vdate), ("temp", w1), ("_", normCell t13), ("dew_point", w2),
       ("sea_level_pressure", w3), ("station_pressure", w4), ("visibility", w5),
       ("wind_speed", w6), ("max_wind_speed", w7), ("max_wind_gust", w8),
       ("max_temp", w9), ("min_temp", w10), ("precipitation", w11),
       ("snow_depth", w12), ("indicators", normCell t20),
       ("temp_c", c1), ("max_temp_c", c2), ("min_temp_c", c3)] := by
    rw [← ho3]
    simp [dictSet]
  rw [ho3f] at hind4 ho4
  simp [dictGet?] at hind4
  have hW : dictSet
      [("date", vdate), ("temp", w1), ("_", normCell t13), ("dew_point", w2),
       ("sea_level_pressure", w3), ("station_pressure", w4), ("visibility", w5),
       ("wind_speed", w6), ("max_wind_speed", w7), ("max_wind_gust", w8),
       ("max_temp", w9), ("min_temp", w10), ("precipitation", w11),
       ("snow_depth", w12), ("indicators", normCell t20),
       ("temp_c", c1), ("max_temp_c", c2), ("min_temp_c", c3)]
      "weather_ok" (PyVal.bool (!(s.data.map (fun c => c == '1')).any id)) =
      [("date", vdate), ("temp", w1), ("_", normCell t13), ("dew_point", w2),
       ("sea_level_pressure", w3), ("station_pressure", w4), ("visibility", w5),
       ("wind_speed", w6), ("max_wind_speed", w7), ("max_wind_gust", w8),
       ("max_temp", w9), ("min_temp", w10), ("precipitation", w11),
       ("snow_depth", w12), ("indicators", normCell t20),
       ("temp_c", c1), ("max_temp_c", c2), ("min_temp_c", c3),
       ("weather_ok", PyVal.bool (!(s.data.map (fun c => c == '1')).any id))] := by
    simp [dictSet]
  rw [hW] at ho4
  have hfresh : ∀ p ∈ indicator_names.zip ((s.data.map (fun c => c == '1')).map PyVal.bool),
      dictGet?
        [("date", vdate), ("temp", w1), ("_", normCell t13), ("dew_point", w2),
         ("sea_level_pressure", w3), ("station_pressure", w4), ("visibility", w5),
         ("wind_speed", w6), ("max_wind_speed", w7), ("max_wind_gust", w8),
         ("max_temp", w9), ("min_temp", w10), ("precipitation", w11),
         ("snow_depth", w12), ("indicators", normCell t20),
         ("temp_c", c1), ("max_temp_c", c2), ("min_temp_c", c3),
         ("weather_ok", PyVal.bool (!(s.data.map (fun c => c == '1')).any id))]
        p.1 = Option.none := by
    rintro ⟨a, b⟩ hp
    have ha : a ∈ indicator_names := (List.of_mem_zip hp).1
    simp only [indicator_names] at ha
    fin_cases ha <;> simp [dictGet?]
  have hnd : ((indicator_names.zip
      ((s.data.map (fun c => c == '1')).map PyVal.bool)).map Prod.fst).Nodup := by
    rw [map_fst_zip_eq_take]
    exact List.Nodup.sublist (List.take_sublist _ _) (by decide)
  rw [foldl_set_eq_append _ _ hfresh hnd] at ho4
  subst ho4
  have hget : dictGet?
      ([("date", vdate), ("temp", w1), ("_", normCell t13), ("dew_point", w2),
        ("sea_level_pressure", w3), ("station_pressure", w4), ("visibility", w5),
        ("wind_speed", w6), ("max_wind_speed", w7), ("max_wind_gust", w8),
        ("max_temp", w9), ("min_temp", w10), ("precipitation", w11),
        ("snow_depth", w12), ("indicators", normCell t20),
        ("temp_c", c1), ("max_temp_c", c2), ("min_temp_c", c3),
        ("weather_ok", PyVal.bool (!(s.data.map (fun c => c == '1')).any id))] ++
        indicator_names.zip ((s.data.map (fun c => c == '1')).map PyVal.bool)) "_"
      = some (normCell t13) := by
    rw [dictGet?_append]
    simp [dictGet?]
  simp only [delKey] at hdel
  rw [hget] at hdel
  have hr : ([("date", vdate), ("temp", w1), ("_", normCell t13), ("dew_point", w2),
        ("sea_level_pressure", w3), ("station_pressure", w4), ("visibility", w5),
        ("wind_speed", w6), ("max_wind_speed", w7), ("max_wind_gust", w8),
        ("max_temp", w9), ("min_temp", w10), ("precipitation", w11),
        ("snow_depth", w12), ("indicators", normCell t20),
        ("temp_c", c1), ("max_temp_c", c2), ("min_temp_c", c3),
        ("weather_ok", PyVal.bool (!(s.data.map (fun c => c == '1')).any id))] ++
      indicator_names.zip ((s.data.map (fun c => c == '1')).map PyVal.bool)).filter (fun p => p.1 ≠ "_") = r :=
    Except.ok.inj hdel
  have hfilter : ([("date", vdate), ("temp", w1), ("_", normCell t13), ("dew_point", w2),
        ("sea_level_pressure", w3), ("station_pressure", w4), ("visibility", w5),
        ("wind_speed", w6), ("max_wind_speed", w7), ("max_wind_gust", w8),
        ("max_temp", w9), ("min_temp", w10), ("precipitation", w11),
        ("snow_depth", w12), ("indicators", normCell t20),
        ("temp_c", c1), ("max_temp_c", c2), ("min_temp_c", c3),
        ("weather_ok", PyVal.bool (!(s.data.map (fun c => c == '1')).any id))] ++
      indicator_names.zip ((s.data.map (fun c => c == '1')).map PyVal.bool)).filter (fun p => p.1 ≠ "_") =
      [("date", vdate), ("temp", w1), ("dew_point", w2), ("sea_level_pressure", w3),
       ("station_pressure", w4), ("visibility", w5), ("wind_speed", w6),
       ("max_wind_speed", w7), ("max_wind_gust", w8), ("max_temp", w9),
       ("min_temp", w10), ("precipitation", w11), ("snow_depth", w12),
       ("indicators", normCell t20), ("temp_c", c1), ("max_temp_c", c2), ("min_temp_c", c3),
       ("weather_ok", PyVal.bool (!(s.data.map (fun c => c == '1')).any id))]
      ++ indicator_names.zip ((s.data.map (fun c => c == '1')).map PyVal.bool) := by
    rw [List.filter_append]
    have h2 : (indicator_names.zip
        ((s.data.map (fun c => c == '1')).map PyVal.bool)).filter
          (fun p => p.1 ≠ "_") =
        indicator_names.zip ((s.data.map (fun c => c == '1')).map PyVal.bool) := by
      refine List.filter_eq_self.mpr ?_
      rintro ⟨a, b⟩ hp
      have ha : a ∈ indicator_names := (List.of_mem_zip hp).1
      simp only [indicator_names] at ha
      fin_cases ha <;> simp
    rw [h2]
    simp
  rw [hind4] at hfilter hr
  refine ⟨t1, t2, t3, t4, t5, t6, t7, t8, t9, t10, t11, t12, t13, t14, t15, t16, t17,
    t18, t19, t20, rest, vdate, w1, w2, w3, w4, w5, w6, w7, w8, w9, w10, w11, w12,
    c1, c2, c3, s, rfl, hdate, hw1, hw2, hw3, hw4, hw5, hw6, hw7, hw8, hw9, hw10, hw11,
    hw12, hc1, hc2, hc3, hind4, ?_⟩
  rw [← hr]
  exact hfilter

end Gsod

namespace Gsod

/-! ### Helper corollaries of the master inversion -/

/-- The key list of any successfully parsed weather record: the eighteen base
keys followed by one indicator key per character of the indicator token
(capped at six). -/
theorem parse_ok_keys {line : String} {r : Dict} {s : String}
    (h : parse_weather_record line = .ok r)
    (hind : dictGet? r "indicators" = some (.str s)) :
    keysOf r = weatherBaseKeys ++ indicator_names.take s.data.length := by
  obtain ⟨t1, t2, t3, t4, t5, t6, t7, t8, t9, t10, t11, t12, t13, t14, t15, t16, t17, t18,
    t19, t20, rest, vdate, w1, w2, w3, w4, w5, w6, w7, w8, w9, w10, w11, w12,
    c1, c2, c3, s0, _, _, _, _, _, _, _, _, _, _, _, _, _, _, _, _, _, _, hr⟩ :=
      parse_tokens_ok_master h
  subst hr
  have hss : s0 = s := by
    rw [dictGet?_append] at hind
    simpa [dictGet?] using hind
  rw [← hss]
  have h1 : keysOf
      [("date", vdate), ("temp", w1), ("dew_point", w2), ("sea_level_pressure", w3),
       ("station_pressure", w4), ("visibility", w5), ("wind_speed", w6),
       ("max_wind_speed", w7), ("max_wind_gust", w8), ("max_temp", w9),
       ("min_temp", w10), ("precipitation", w11), ("snow_depth", w12),
       ("indicators", PyVal.str s0), ("temp_c", c1), ("max_temp_c", c2), ("min_temp_c", c3),
       ("weather_ok", PyVal.bool (!(s0.data.map (fun c => c == '1')).any id))] =
      weatherBaseKeys := by
    simp [keysOf, weatherBaseKeys]
  have h2 : keysOf (indicator_names.zip ((s0.data.map (fun c => c == '1')).map PyVal.bool)) =
      indicator_names.take s0.data.length := by
    rw [keysOf_eq_map_fst, map_fst_zip_eq_take]
    simp
  rw [keysOf_append, h1, h2]

/-- The shapes `celsiusOf` can succeed with: null maps to null and a number
`q` maps to `(q - 32) * 5 / 9`. -/
theorem celsiusOf_ok_cases {v c : PyVal} (h : celsiusOf v = .ok c) :
    (c = PyVal.none ↔ v = PyVal.none) ∧
      ∀ q : ℚ, v = .num q → c = .num ((q - 32) * 5 / 9) := by
  cases v with
  | none =>
    simp only [celsiusOf, Except.ok.injEq] at h
    subst h
    simp
  | num q =>
    simp only [celsiusOf, Except.ok.injEq] at h
    subst h
    simp
  | str s => simp [celsiusOf] at h
  | bool b => simp [celsiusOf] at h
  | date y m d => simp [celsiusOf] at h

/-! ### Claim C1 -/

/-- Claim C1, counterexample: the weather line `lineB`, whose precipitation
token is `"0.00G"`, parses successfully (no exception at all) and its
precipitation value is `0.0` — refuting the claim that `parse_weather_record`
raises a numeric parse error on it. -/
theorem claim1_precip_flag_counterexample :
    (parse_weather_record lineB).isOk = true ∧
    weatherField lineB "precipitation" = some (.num 0) := by
  decide

/-- Claim C1, amended: the quality-flag strip set `'*ABCDEFGHI'` does contain
`'G'`, so the trailing `G` of `"0.00G"` is stripped, the remaining `"0.00"`
is a valid float, and the token converts to `0.0` without error. -/
theorem claim1_precip_flag_amended :
    rstripQuality "0.00G" = "0.00" ∧
    pyFloat? "0.00" = some 0 ∧
    floatConv (.str "0.00G") = .ok (.num 0) := by
  decide

/-! ### Claim C4 -/

/-- Claim C4: sentinel detection is an exact string match performed after
quality-flag stripping — the per-slot conversion yields semantic null exactly
when the stripped token equals one of the sentinel strings, and otherwise
parses the stripped token as a float; `"9999.9"` and `"9999.9A"` give null,
`"45.2A"` gives `45.2`, and a `max_temp` token `"999.9*"` on a full line
gives null for both `max_temp` and `max_temp_c`. -/
theorem claim4_sentinel_exact_match :
    (∀ s : String, floatConv (.str s) = .ok PyVal.none ↔
      (rstripQuality s = "9999.9" ∨ rstripQuality s = "99.99" ∨ rstripQuality s = "999.9")) ∧
    (∀ (s : String) (q : ℚ), floatConv (.str s) = .ok (.num q) ↔
      (¬(rstripQuality s = "9999.9" ∨ rstripQuality s = "99.99" ∨ rstripQuality s = "999.9") ∧
        pyFloat? (rstripQuality s) = some q)) ∧
    floatConv (.str "9999.9") = .ok PyVal.none ∧
    floatConv (.str "9999.9A") = .ok PyVal.none ∧
    floatConv (.str "45.2A") = .ok (.num (mkRat 226 5)) ∧
    weatherField lineC "max_temp" = some PyVal.none ∧
    weatherField lineC "max_temp_c" = some PyVal.none := by
  refine ⟨?_, ?_, by decide, by decide, by decide, by decide, by decide⟩
  · intro s
    by_cases hsent : rstripQuality s = "9999.9" ∨ rstripQuality s = "99.99" ∨
        rstripQuality s = "999.9"
    · simp [floatConv, hsent]
    · cases hf : pyFloat? (rstripQuality s) <;> simp [floatConv, hsent, hf]
  · intro s q
    constructor
    · intro h
      by_cases hsent : rstripQuality s = "9999.9" ∨ rstripQuality s = "99.99" ∨
          rstripQuality s = "999.9"
      · simp [floatConv, hsent] at h
      · cases hf : pyFloat? (rstripQuality s) with
        | none => simp [floatConv, hsent, hf] at h
        | some q' =>
          simp [floatConv, hsent, hf] at h
          exact ⟨hsent, by rw [h]⟩
    · rintro ⟨hsent, hq⟩
      simp [floatConv, hsent, hq]

/-- Claim C4, witness: the sentinel iff applied at the concrete non-sentinel
token `"7777.7B"`. -/
theorem claim4_sentinel_exact_match_witness :
    floatConv (.str "7777.7B") = .ok (.num (mkRat 77777 10)) :=
  (claim4_sentinel_exact_match.2.1 "7777.7B" (mkRat 77777 10)).mpr (by decide)

/-! ### Claim C6 -/

/-- Claim C6, counterexample: the header `dupStationHeader` normalises to a
key list with `lat` twice, yet header parsing does not fail — row parsing
with those keys succeeds — refuting the claimed `MalformedHeaderError`. -/
theorem claim6_dup_header_counterexample :
    ¬(get_field_names dupStationHeader).Nodup ∧
    (parse_station_row dupStationHeader dupStationRow).isOk = true := by
  decide

/-- Claim C6, amended: `get_field_names` performs no duplicate detection: it
returns the normalised keys including the duplicate, and zipping a row keeps
the first column's position with the last duplicated column's cell (here the
sign-stripped `"99.9"`). -/
theorem claim6_dup_header_amended :
    get_field_names dupStationHeader = ["lat", "lon", "elev(m)", "begin", "end", "lat"] ∧
    parse_station_row dupStationHeader dupStationRow = .ok dupStationRec ∧
    dictGet? dupStationRec "lat" = some (.str "99.9") := by
  decide

/-! ### Claim C7 -/

/-- Claim C7, counterexample: on the token `"++1"`, `convert_location`
removes the whole leading run of `'+'` (Python `lstrip`), not exactly one. -/
theorem claim7_strip_sign_counterexample :
    convert_location (.str "++1") = .ok (.str "1") ∧
    convert_location (.str "++1") ≠ .ok (.str "+1") := by
  decide

/-- Claim C7, amended: for every non-null, non-empty token, `convert_location`
removes the maximal leading run of `'+'` characters (so one `'+'` when there
is exactly one, and none when the token does not start with `'+'`); it
performs no numeric validation. -/
theorem claim7_strip_sign_amended :
    ∀ s : String, s ≠ "" → convert_location (.str s) = .ok (.str (pyLstripPlus s)) := by
  intro s hs
  have hsc : pyTruthy (.str s) = true := decide_eq_true hs
  obtain ⟨cs⟩ := s
  cases cs with
  | nil => exact absurd rfl hs
  | cons c cs =>
    by_cases hc : c = '+'
    · subst hc
      simp [convert_location, hsc]
    · simp [convert_location, hsc, hc, pyLstripPlus, List.dropWhile_cons]

/-- Claim C7, witness: the amended statement applied at `"-99999"` (no sign
to strip, passes through unchanged — no numeric validation) and `"+34567"`
(one leading plus stripped). -/
theorem claim7_strip_sign_witness :
    convert_location (.str "-99999") = .ok (.str "-99999") ∧
    convert_location (.str "+34567") = .ok (.str "34567") := by
  constructor
  · have h := claim7_strip_sign_amended "-99999" (by decide)
    rw [h]
    decide
  · have h := claim7_strip_sign_amended "+34567" (by decide)
    rw [h]
    decide

/-! ### Claim C10 -/

/-- Claim C10: `str_to_datetime` is a falsy pass-through, not a strict null
propagator: `None` comes back as `None`, but the empty string comes back as
the empty string itself — not semantic null, not a date, and without raising. -/
theorem claim10_falsy_passthrough :
    str_to_datetime PyVal.none = .ok PyVal.none ∧
    str_to_datetime (.str "") = .ok (.str "") ∧
    PyVal.str "" ≠ PyVal.none ∧
    (∀ y m d : ℕ, PyVal.str "" ≠ PyVal.date y m d) := by
  refine ⟨by decide, by decide, by decide, ?_⟩
  intro y m d
  simp

end Gsod

namespace Gsod

/-! ### Helpers for the station-row claims -/

theorem dictGet?_dictOfZip_none {ns : List String} {vs : List PyVal} {k : String}
    (h : k ∉ ns.take vs.length) : dictGet? (dictOfZip ns vs) k = Option.none := by
  cases hg : dictGet? (dictOfZip ns vs) k with
  | none => rfl
  | some v =>
    exfalso
    have hm : k ∈ keysOf (dictOfZip ns vs) := mem_keysOf_iff.mpr (by rw [hg]; rfl)
    unfold dictOfZip at hm
    rw [mem_keysOf_foldl_set] at hm
    rcases hm with h1 | h1
    · simp [keysOf] at h1
    · rw [map_fst_zip_eq_take] at h1
      exact h h1

/-- A successful `postprocess` requires the key `"end"` to be present. -/
theorem postprocess_ok_end {obj d : Dict} (h : postprocess obj = .ok d) :
    (dictGet? obj "end").isSome := by
  have h' : (dictGetE obj "lat" >>= fun v1 =>
      convert_location v1 >>= fun v1' =>
      dictGetE (dictSet obj "lat" v1') "lon" >>= fun v2 =>
      convert_location v2 >>= fun v2' =>
      dictGetE (dictSet (dictSet obj "lat" v1') "lon" v2') "elev(m)" >>= fun v3 =>
      convert_location v3 >>= fun v3' =>
      dictGetE (dictSet (dictSet (dictSet obj "lat" v1') "lon" v2') "elev(m)" v3')
          "begin" >>= fun v4 =>
      str_to_datetime v4 >>= fun v4' =>
      dictGetE (dictSet (dictSet (dictSet (dictSet obj "lat" v1') "lon" v2') "elev(m)" v3')
          "begin" v4') "end" >>= fun v5 =>
      str_to_datetime v5 >>= fun v5' =>
      pure (dictSet (dictSet (dictSet (dictSet (dictSet obj "lat" v1') "lon" v2')
          "elev(m)" v3') "begin" v4') "end" v5')) = .ok d := h
  obtain ⟨v1, h1, h'⟩ := except_bind_ok h'
  obtain ⟨v1', h2, h'⟩ := except_bind_ok h'
  obtain ⟨v2, h3, h'⟩ := except_bind_ok h'
  obtain ⟨v2', h4, h'⟩ := except_bind_ok h'
  obtain ⟨v3, h5, h'⟩ := except_bind_ok h'
  obtain ⟨v3', h6, h'⟩ := except_bind_ok h'
  obtain ⟨v4, h7, h'⟩ := except_bind_ok h'
  obtain ⟨v4', h8, h'⟩ := except_bind_ok h'
  obtain ⟨v5, h9, h'⟩ := except_bind_ok h'
  have hkey : dictGet? (dictSet (dictSet (dictSet (dictSet obj "lat" v1') "lon" v2')
      "elev(m)" v3') "begin" v4') "end" = dictGet? obj "end" := by
    rw [dictGet?_set_ne _ (by decide), dictGet?_set_ne _ (by decide),
        dictGet?_set_ne _ (by decide), dictGet?_set_ne _ (by decide)]
  unfold dictGetE at h9
  rw [hkey] at h9
  cases hg : dictGet? obj "end" with
  | none => rw [hg] at h9; exact absurd h9 (by simp)
  | some v => rfl

/-! ### Claim C5 -/

/-- Claim C5, counterexample: with a header one column longer than the row,
the row (fewer cells than the header has keys) is zipped with silent
truncation and parses successfully — the `extra` field is simply missing —
refuting the claimed `RowArityError`. -/
theorem claim5_row_arity_counterexample :
    shortStationRow.length < (get_field_names extraStationHeader).length ∧
    parse_station_row extraStationHeader shortStationRow = .ok stationRecShort ∧
    "extra" ∉ keysOf stationRecShort := by
  decide

/-- Claim C5, amended: there is no dedicated arity check — a short row is
zipped with truncation — but for the station directory's actual header
(whose last derived key, `end`, is postprocessed) every strictly shorter row
still fails, with a `KeyError`/`ValueError` from `postprocess`, never with a
record.  Rows can only slip through silently under headers with trailing
columns that `postprocess` does not touch. -/
theorem claim5_row_arity_amended :
    ∀ row : List String, row.length < (get_field_names stdStationHeader).length →
      (parse_station_row stdStationHeader row).isOk = false := by
  intro row hlen
  cases hp : parse_station_row stdStationHeader row with
  | error e => rfl
  | ok d =>
    exfalso
    have hend := postprocess_ok_end hp
    have hkeys : get_field_names stdStationHeader =
        ["usaf", "wban", "station_name", "ctry", "state", "icao", "lat", "lon",
         "elev(m)", "begin", "end"] := by decide
    rw [hkeys] at hlen
    have hnone : dictGet? (dictOfZip (get_field_names stdStationHeader)
        (row.map normCell)) "end" = Option.none := by
      apply dictGet?_dictOfZip_none
      rw [hkeys]
      intro hmem
      have hm10 : ("end" : String) ∈
          (["usaf", "wban", "station_name", "ctry", "state", "icao", "lat", "lon",
            "elev(m)", "begin", "end"] : List String).take 10 := by
        refine mem_take_of_le ?_ hmem
        rw [List.length_map]
        simp at hlen
        omega
      revert hm10
      decide
    rw [hnone] at hend
    exact absurd hend (by simp)

/-- Claim C5, witness: the amended statement applied to the empty row. -/
theorem claim5_row_arity_witness :
    (parse_station_row stdStationHeader []).isOk = false :=
  claim5_row_arity_amended [] (by decide)

/-! ### Claim C8 -/

/-- The relationship claim C8 asserts between a Fahrenheit field `f` and its
Celsius companion `fc` in a parsed record. -/
def celsiusPairOk (r : Dict) (f fc : String) : Prop :=
  ∃ v c, dictGet? r f = some v ∧ dictGet? r fc = some c ∧ celsiusOf v = .ok c ∧
    (c = PyVal.none ↔ v = PyVal.none) ∧
    ∀ q : ℚ, v = .num q → c = .num ((q - 32) * 5 / 9)

/-- Claim C8: in every successfully parsed weather record, each of the three
Celsius companion fields holds `(F − 32) × 5⁄9` of its Fahrenheit field and
is semantic null exactly when the Fahrenheit field is; `32.0` converts to
`0.0` and null to null. -/
theorem claim8_celsius :
    (∀ (line : String) (r : Dict), parse_weather_record line = .ok r →
      celsiusPairOk r "temp" "temp_c" ∧ celsiusPairOk r "max_temp" "max_temp_c" ∧
        celsiusPairOk r "min_temp" "min_temp_c") ∧
    celsiusOf (.num 32) = .ok (.num 0) ∧
    celsiusOf PyVal.none = .ok PyVal.none := by
  refine ⟨?_, ?_, rfl⟩
  · intro line r h
    obtain ⟨t1, t2, t3, t4, t5, t6, t7, t8, t9, t10, t11, t12, t13, t14, t15, t16, t17, t18,
      t19, t20, rest, vdate, w1, w2, w3, w4, w5, w6, w7, w8, w9, w10, w11, w12,
      c1, c2, c3, s0, _, _, _, _, _, _, _, _, _, _, _, _, _, _, hc1, hc2, hc3, _, hr⟩ :=
        parse_tokens_ok_master h
    subst hr
    refine ⟨⟨w1, c1, ?_, ?_, hc1, (celsiusOf_ok_cases hc1).1, (celsiusOf_ok_cases hc1).2⟩,
      ⟨w9, c2, ?_, ?_, hc2, (celsiusOf_ok_cases hc2).1, (celsiusOf_ok_cases hc2).2⟩,
      ⟨w10, c3, ?_, ?_, hc3, (celsiusOf_ok_cases hc3).1, (celsiusOf_ok_cases hc3).2⟩⟩ <;>
      (rw [dictGet?_append]; simp [dictGet?])
  · have h0 : ((32 : ℚ) - 32) * 5 / 9 = 0 := by norm_num
    show celsiusOf (PyVal.num 32) = Except.ok (PyVal.num 0)
    simp only [celsiusOf, h0]

/-- Claim C8, witness: the general statement applied to the all-sentinel line
`lineS6` and its record. -/
theorem claim8_celsius_witness :
    celsiusPairOk recS6 "temp" "temp_c" ∧ celsiusPairOk recS6 "max_temp" "max_temp_c" ∧
      celsiusPairOk recS6 "min_temp" "min_temp_c" :=
  claim8_celsius.1 lineS6 recS6 (by decide)

end Gsod

namespace Gsod

/-! ### Claim C2 -/

/-- Claim C2, counterexample: the line `lineS5`, whose indicator token
`"10000"` has five characters, parses successfully; the `tornado` field is
silently absent from the record — refuting the claimed
`MalformedIndicatorError`. -/
theorem claim2_short_indicator_counterexample :
    (parse_weather_record lineS5).isOk = true ∧
    weatherField lineS5 "tornado" = Option.none ∧
    weatherField lineS5 "thunder" = some (.bool false) := by
  decide

/-- Claim C2, amended: an indicator token shorter than six characters raises
nothing; `zip` truncation keeps only the leading indicator fields, one per
token character, and the trailing ones (here `tornado`) are silently absent. -/
theorem claim2_short_indicator_amended :
    ∀ (line : String) (r : Dict) (s : String),
      parse_weather_record line = .ok r →
      dictGet? r "indicators" = some (.str s) → s.length < 6 →
      keysOf r = weatherBaseKeys ++ indicator_names.take s.length ∧
        "tornado" ∉ keysOf r := by
  intro line r s h hind hlen
  have hk := parse_ok_keys h hind
  have hsl : s.length = s.data.length := rfl
  constructor
  · rw [hk, hsl]
  · rw [hk]
    intro hmem
    rcases List.mem_append.mp hmem with hm | hm
    · revert hm
      decide
    · have h5 : ("tornado" : String) ∈ indicator_names.take 5 := by
        refine mem_take_of_le ?_ hm
        omega
      revert h5
      decide

/-- Claim C2, witness: the amended statement applied to `lineS5` and its
record. -/
theorem claim2_short_indicator_witness :
    keysOf recS5 = weatherBaseKeys ++ indicator_names.take ("10000" : String).length ∧
      "tornado" ∉ keysOf recS5 :=
  claim2_short_indicator_amended lineS5 recS5 "10000" (by decide) (by decide) (by decide)

/-! ### Claim C9 -/

/-- Claim C9, counterexample: a successfully parsed record keeps the raw
`indicators` token as a field, which is not among the 23 field names the
claim enumerates — the claimed fixed field set is wrong. -/
theorem claim9_field_set_counterexample :
    (parse_weather_record lineS6).isOk = true ∧
    weatherField lineS6 "indicators" = some (.str "010000") ∧
    "indicators" ∉ claimedWeatherFields := by
  decide

/-- Claim C9, amended: for every successfully parsed weather line whose
indicator token has at least six characters, the record's key list is
exactly the date, the 12 numeric fields, the raw `indicators` token, the 3
Celsius companions, `weather_ok`, and the six indicator booleans — in that
insertion order, with no `'_'` placeholder field. -/
theorem claim9_field_set_amended :
    ∀ (line : String) (r : Dict) (s : String),
      parse_weather_record line = .ok r →
      dictGet? r "indicators" = some (.str s) → 6 ≤ s.length →
      keysOf r = weatherRecordKeys := by
  intro line r s h hind hlen
  rw [parse_ok_keys h hind, weatherRecordKeys]
  rw [List.take_of_length_le (by simpa [indicator_names] using hlen)]

/-- Claim C9, witness: the amended statement applied to `lineS6` and its
record. -/
theorem claim9_field_set_witness :
    keysOf recS6 = weatherRecordKeys :=
  claim9_field_set_amended lineS6 recS6 "010000" (by decide) (by decide) (by decide)

/-! ### Claim C3 -/

/-- Claim C3, counterexample: on a line whose indicator token is the
seven-character `"0000001"`, all six named indicator fields are false and yet
`weather_ok` is false — `not any` ranges over every character of the token —
so the claimed iff fails on a successfully parsed line. -/
theorem claim3_weather_ok_counterexample :
    (parse_weather_record lineB7).isOk = true ∧
    weatherField lineB7 "fog" = some (.bool false) ∧
    weatherField lineB7 "rain" = some (.bool false) ∧
    weatherField lineB7 "snow" = some (.bool false) ∧
    weatherField lineB7 "hail" = some (.bool false) ∧
    weatherField lineB7 "thunder" = some (.bool false) ∧
    weatherField lineB7 "tornado" = some (.bool false) ∧
    weatherField lineB7 "weather_ok" = some (.bool false) := by
  decide

/-- Claim C3, amended: restricted to records whose indicator token has
exactly six characters (the archive's `FRSHTT` width), `weather_ok` is true
iff all six indicator fields are false; and the concrete decodings of
`"000000"` and `"100000"` are as claimed. -/
theorem claim3_weather_ok_amended :
    (∀ (line : String) (r : Dict) (s : String),
      parse_weather_record line = .ok r →
      dictGet? r "indicators" = some (.str s) →
      s.length = 6 →
      (dictGet? r "weather_ok" = some (.bool true) ↔
        (dictGet? r "fog" = some (.bool false) ∧ dictGet? r "rain" = some (.bool false) ∧
         dictGet? r "snow" = some (.bool false) ∧ dictGet? r "hail" = some (.bool false) ∧
         dictGet? r "thunder" = some (.bool false) ∧
         dictGet? r "tornado" = some (.bool false)))) ∧
    weatherField lineB "weather_ok" = some (.bool true) ∧
    weatherField lineB2 "fog" = some (.bool true) ∧
    weatherField lineB2 "rain" = some (.bool false) ∧
    weatherField lineB2 "snow" = some (.bool false) ∧
    weatherField lineB2 "hail" = some (.bool false) ∧
    weatherField lineB2 "thunder" = some (.bool false) ∧
    weatherField lineB2 "tornado" = some (.bool false) ∧
    weatherField lineB2 "weather_ok" = some (.bool false) := by
  refine ⟨?_, by decide, by decide, by decide, by decide, by decide, by decide, by decide,
    by decide⟩
  intro line r s h hind hlen
  obtain ⟨t1, t2, t3, t4, t5, t6, t7, t8, t9, t10, t11, t12, t13, t14, t15, t16, t17, t18,
    t19, t20, rest, vdate, w1, w2, w3, w4, w5, w6, w7, w8, w9, w10, w11, w12,
    c1, c2, c3, s0, _, _, _, _, _, _, _, _, _, _, _, _, _, _, _, _, _, _, hr⟩ :=
      parse_tokens_ok_master h
  subst hr
  have hss : s0 = s := by
    rw [dictGet?_append] at hind
    simpa [dictGet?] using hind
  rw [← hss] at hlen
  have hlen' : s0.data.length = 6 := hlen
  clear hss hind hlen
  obtain ⟨cs⟩ := s0
  rcases cs with _ | ⟨a1, cs⟩
  · simp at hlen'
  rcases cs with _ | ⟨a2, cs⟩
  · simp at hlen'
  rcases cs with _ | ⟨a3, cs⟩
  · simp at hlen'
  rcases cs with _ | ⟨a4, cs⟩
  · simp at hlen'
  rcases cs with _ | ⟨a5, cs⟩
  · simp at hlen'
  rcases cs with _ | ⟨a6, cs⟩
  · simp at hlen'
  have hnil : cs = [] := by
    simpa using hlen'
  subst hnil
  rw [dictGet?_append, dictGet?_append, dictGet?_append, dictGet?_append, dictGet?_append,
    dictGet?_append, dictGet?_append]
  simp [dictGet?, indicator_names]

/-- Claim C3, witness: the amended iff applied to `lineS6` and its record. -/
theorem claim3_weather_ok_witness :
    dictGet? recS6 "weather_ok" = some (.bool true) ↔
      (dictGet? recS6 "fog" = some (.bool false) ∧
       dictGet? recS6 "rain" = some (.bool false) ∧
       dictGet? recS6 "snow" = some (.bool false) ∧
       dictGet? recS6 "hail" = some (.bool false) ∧
       dictGet? recS6 "thunder" = some (.bool false) ∧
       dictGet? recS6 "tornado" = some (.bool false)) :=
  claim3_weather_ok_amended.1 lineS6 recS6 "010000" (by decide) (by decide) (by decide)

end Gsod

namespace Gsod

/-- Claim C10, witness: the date-disequality component of the falsy
pass-through statement at a concrete date. -/
theorem claim10_falsy_passthrough_witness :
    PyVal.str "" ≠ PyVal.date 2020 1 1 :=
  claim10_falsy_passthrough.2.2.2 2020 1 1

end Gsod
